import Mathlib

/-!
Verification of the uart8250 register-semantics layer
(src/uart8250/src/uart.rs) against its specification.

The pure bit-manipulation logic of each method of MmioUart8250 is embedded
as a Lean function.  Methods that act on a single register through
volatile modify/read are embedded at the byte level (a function on the
register byte); methods touching several registers are embedded as
functions on an explicit register-block state.  A Rust panic is embedded
as a `none` result: the operation aborts and no register write happens.
-/

namespace Uart8250

/-- Interrupt causes decoded from the IIR register (enum InterruptType in
uart.rs). -/
inductive InterruptType where
  | ModemStatus
  | TransmitterHoldingRegisterEmpty
  | ReceivedDataAvailable
  | ReceiverLineStatus
  | Timeout
  | Reserved
deriving DecidableEq, Repr

/-- Parity modes (enum Parity in uart.rs). -/
inductive Parity where
  | No
  | Odd
  | Even
  | Mark
  | Space
deriving DecidableEq, Repr, Fintype

/-- Modelled from the spec: the fixed-layout block of 8 byte-wide
registers of the UART (uart8250/src/registers.rs is not part of the
sources; the spec describes the block as 8 consecutive byte registers:
data/divisor-low, interrupt-enable/divisor-high, interrupt-id/fifo-ctrl,
line control, modem control, line status, modem status, scratch — offsets
0..7, with byte-granularity read/write/modify).  Field names follow the
accesses made in uart.rs. -/
structure RegState where
  thr_rbr_dll : Nat
  ier_dlh : Nat
  iir_fcr : Nat
  lcr : Nat
  mcr : Nat
  lsr : Nat
  msr : Nat
  scratch : Nat
deriving DecidableEq, Repr

/-- Names of the 8 hardware registers, used to log accesses. -/
inductive Reg where
  | thr_rbr_dll
  | ier_dlh
  | iir_fcr
  | lcr
  | mcr
  | lsr
  | msr
  | scratch
deriving DecidableEq, Repr

/-- The width of Rust usize arithmetic in this crate (64-bit targets). -/
def USIZE : Nat := 2 ^ 64

/- ----------------------- IIR decoding ----------------------- -/

/-- read_interrupt_type from uart.rs: take the low 4 bits of the IIR
byte; if bit 0 is set there is no pending interrupt (inner none);
otherwise decode the 4-bit pattern through the fixed table.  The outer
Option models the panic branch of the Rust match: outer none means the
code would panic. -/
def read_interrupt_type (iir : Nat) : Option (Option InterruptType) :=
  let irq := iir &&& 0b1111
  if irq &&& 1 ≠ 0 then
    some none
  else
    match irq with
    | 0b0000 => some (some InterruptType.ModemStatus)
    | 0b0010 => some (some InterruptType.TransmitterHoldingRegisterEmpty)
    | 0b0100 => some (some InterruptType.ReceivedDataAvailable)
    | 0b0110 => some (some InterruptType.ReceiverLineStatus)
    | 0b1100 => some (some InterruptType.Timeout)
    | 0b1000 => some (some InterruptType.Reserved)
    | 0b1010 => some (some InterruptType.Reserved)
    | 0b1110 => some (some InterruptType.Reserved)
    | _ => none

/-- Refinement side of claim C1, written from the spec words: bit 0 set
means no cause; otherwise pattern 0000 is ModemStatus, 0010 is
TransmitterHoldingRegisterEmpty, 0100 is ReceivedDataAvailable, 0110 is
ReceiverLineStatus, 1100 is Timeout, and 1000/1010/1110 are Reserved. -/
def interruptCauseSpec (bits : Nat) : Option InterruptType :=
  if bits % 2 = 1 then
    none
  else
    match bits with
    | 0b0000 => some InterruptType.ModemStatus
    | 0b0010 => some InterruptType.TransmitterHoldingRegisterEmpty
    | 0b0100 => some InterruptType.ReceivedDataAvailable
    | 0b0110 => some InterruptType.ReceiverLineStatus
    | 0b1100 => some InterruptType.Timeout
    | _ => some InterruptType.Reserved

/- ----------------------- LCR codec (byte level) ----------------------- -/

/-- get_parity from uart.rs, on the LCR byte.  none models the panic on a
bit pattern outside the five valid encodings. -/
def get_parity (v : Nat) : Option Parity :=
  match v &&& 0b00111000 with
  | 0b00000000 => some Parity.No
  | 0b00001000 => some Parity.Odd
  | 0b00011000 => some Parity.Even
  | 0b00101000 => some Parity.Mark
  | 0b00111000 => some Parity.Space
  | _ => none

/-- set_parity from uart.rs: the pure function each match arm passes to
lcr.modify, applied to the LCR byte. -/
def set_parity (parity : Parity) (v : Nat) : Nat :=
  match parity with
  | Parity.No => v &&& 0b11000111
  | Parity.Odd => (v &&& 0b11000111) ||| 0b00001000
  | Parity.Even => (v &&& 0b11000111) ||| 0b00011000
  | Parity.Mark => (v &&& 0b11000111) ||| 0b00101000
  | Parity.Space => v ||| 0b00111000

/-- get_stop_bit from uart.rs, on the LCR byte. -/
def get_stop_bit (v : Nat) : Nat :=
  ((v &&& 0b100) >>> 2) + 1

/-- set_stop_bit from uart.rs, on the LCR byte; none models the panic
(which aborts before any register write). -/
def set_stop_bit (stop_bit : Nat) (v : Nat) : Option Nat :=
  match stop_bit with
  | 1 => some (v &&& 0b11111011)
  | 2 => some (v ||| 0b00000100)
  | _ => none

/-- get_word_length from uart.rs, on the LCR byte. -/
def get_word_length (v : Nat) : Nat :=
  (v &&& 0b11) + 5

/-- set_word_length from uart.rs, on the LCR byte; the valid branch ORs
(length - 5) into the byte, the invalid branch panics (none, no write). -/
def set_word_length (length : Nat) (v : Nat) : Option Nat :=
  if 5 ≤ length ∧ length ≤ 8 then
    some (v ||| (length - 5))
  else
    none

/- ----------------------- IER flag interface ----------------------- -/

/-- Union of the bits of all flags declared in the IER bitflags struct
(RDAI, THREI, RLSI, MSI, SM, LPM): the mask applied by
IER::from_bits_truncate. -/
def IER.MASK : Nat := 0b00111111

def IER.RDAI : Nat := 0b00000001

def IER.THREI : Nat := 0b00000010

def IER.RLSI : Nat := 0b00000100

def IER.MSI : Nat := 0b00001000

def IER.SM : Nat := 0b00010000

def IER.LPM : Nat := 0b00100000

/-- The bits of the six declared IER flags. -/
def ierFlags : List Nat :=
  [IER.RDAI, IER.THREI, IER.RLSI, IER.MSI, IER.SM, IER.LPM]

/-- ier() from uart.rs: IER::from_bits_truncate applied to the IER byte
read from hardware — unknown bits (6 and 7) are dropped. -/
def ier_from_bits_truncate (b : Nat) : Nat :=
  b &&& IER.MASK

/-- The toggle helpers (toggle_sleep_mode and friends): the byte written
back by set_ier(self.ier() ^ flag), as a function of the byte read. -/
def toggle_ier_flag (f : Nat) (v : Nat) : Nat :=
  ier_from_bits_truncate v ^^^ f

/-- The enable helpers: the byte written back by
set_ier(self.ier() | flag). -/
def enable_ier_flag (f : Nat) (v : Nat) : Nat :=
  ier_from_bits_truncate v ||| f

/-- The disable helpers: the byte written back by
set_ier(self.ier() & !flag); bitflags complement is masked to the
declared flag bits, so !flag has bits MASK ^^^ f. -/
def disable_ier_flag (f : Nat) (v : Nat) : Nat :=
  ier_from_bits_truncate v &&& (IER.MASK ^^^ f)

/-- toggle_sleep_mode from uart.rs, at the IER byte level. -/
def toggle_sleep_mode (v : Nat) : Nat :=
  toggle_ier_flag IER.SM v

/- ----------------------- divisor programming ----------------------- -/

/-- enable_divisor_latch_accessible from uart.rs:
lcr.modify(|v| v | 0b10000000). -/
def enable_divisor_latch_accessible (s : RegState) : RegState :=
  { s with lcr := s.lcr ||| 0b10000000 }

/-- disable_divisor_latch_accessible from uart.rs:
lcr.modify(|v| v & !0b10000000); on a u8 the complement is 0b01111111. -/
def disable_divisor_latch_accessible (s : RegState) : RegState :=
  { s with lcr := s.lcr &&& 0b01111111 }

/-- write_dll from uart.rs: write the byte at offset 0. -/
def write_dll (value : Nat) (s : RegState) : RegState :=
  { s with thr_rbr_dll := value }

/-- write_dlh from uart.rs: write the byte at offset 1. -/
def write_dlh (value : Nat) (s : RegState) : RegState :=
  { s with ier_dlh := value }

/-- set_divisor from uart.rs: enable DLAB, compute
divisor = clock / (16 * baud_rate) in usize arithmetic, write the low
byte (divisor as u8) and high byte ((divisor >> 8) as u8), disable DLAB.
none models the Rust panic on division by zero (when 16 * baud_rate is
zero in usize arithmetic); the panic aborts before any register write
beyond the DLAB enable, but for the claims only the none outcome
matters. -/
def set_divisor (clock baud_rate : Nat) (s : RegState) : Option RegState :=
  let s1 := enable_divisor_latch_accessible s
  let denom := 16 * baud_rate % USIZE
  if denom = 0 then
    none
  else
    let divisor := clock / denom
    let s2 := write_dll (divisor % 256) s1
    let s3 := write_dlh ((divisor >>> 8) % 256) s2
    some (disable_divisor_latch_accessible s3)

/- ----------------------- read_byte with access log ----------------------- -/

/-- LSR data-ready flag bit. -/
def LSR.DR : Nat := 0b00000001

/-- read_lsr from uart.rs: read the line-status byte, logging the
access. -/
def read_lsr (s : RegState) : Nat × List Reg :=
  (s.lsr, [Reg.lsr])

/-- read_rbr from uart.rs: read the receiver buffer, logging the
access. -/
def read_rbr (s : RegState) : Nat × List Reg :=
  (s.thr_rbr_dll, [Reg.thr_rbr_dll])

/-- lsr() from uart.rs: LSR::from_bits_truncate — all 8 bits are declared
flags, so the mask is 0xFF. -/
def lsr_from_bits_truncate (b : Nat) : Nat :=
  b &&& 0xFF

/-- is_data_ready from uart.rs: self.lsr().contains(LSR::DR); bitflags
contains is bits & flag == flag.  The single LSR read is logged. -/
def is_data_ready (s : RegState) : Bool × List Reg :=
  let r := read_lsr s
  (lsr_from_bits_truncate r.1 &&& LSR.DR == LSR.DR, r.2)

/-- read_byte from uart.rs: check is_data_ready, and only on success read
the receiver buffer.  The returned list is the sequence of register
accesses performed. -/
def read_byte (s : RegState) : Option Nat × List Reg :=
  let c := is_data_ready s
  if c.1 then
    let r := read_rbr s
    (some r.1, c.2 ++ r.2)
  else
    (none, c.2)

/- A fixed register state used for concrete witnesses: every register
holds 0 except LCR, which holds an arbitrary busy pattern to exercise
frame conditions. -/

/-- Concrete register state for witnesses: all registers 0. -/
def regZero : RegState :=
  ⟨0, 0, 0, 0, 0, 0, 0, 0⟩

/-- Concrete register state for witnesses: LCR holds 0xFF, the rest 0. -/
def regLcrFF : RegState :=
  ⟨0, 0, 0, 0xFF, 0, 0, 0, 0⟩

/- ----------------------- helper lemmas ----------------------- -/

/-- Masking with 0xFF is reduction mod 256 (the u8 cast). -/
theorem and_255_eq_mod (x : Nat) : x &&& 0xFF = x % 256 := by
  have h := Nat.and_pow_two_sub_one_eq_mod x 8
  norm_num at h
  exact h

/-- Setting bit 7 and then clearing it is the same as clearing it. -/
theorem or_128_and_127 (x : Nat) : (x ||| 0b10000000) &&& 0b01111111 = x &&& 0b01111111 := by
  rw [Nat.and_distrib_right]
  have h : (0b10000000 : Nat) &&& 0b01111111 = 0 := by decide
  rw [h, Nat.or_zero]

/-- A byte with bit 7 cleared has DLAB clear. -/
theorem and_127_and_128 (x : Nat) : (x &&& 0b01111111) &&& 0b10000000 = 0 := by
  rw [Nat.and_assoc]
  have h : (0b01111111 : Nat) &&& 0b10000000 = 0 := by decide
  rw [h, Nat.and_zero]

/- ----------------------- claim theorems ----------------------- -/

set_option maxRecDepth 100000

/-- C1: interrupt-cause decoding is total over every IIR byte: the panic
branch is never reached (the result is always some), and the low 4 bits
decode exactly per the fixed table — bit 0 set means no cause, 0000 is
ModemStatus, 0010 is TransmitterHoldingRegisterEmpty, 0100 is
ReceivedDataAvailable, 0110 is ReceiverLineStatus, 1100 is Timeout, and
1000/1010/1110 are Reserved. -/
theorem read_interrupt_type_total :
    ∀ iir : Fin 256, read_interrupt_type iir.val = some (interruptCauseSpec (iir.val % 16)) := by
  decide

/-- C2: for clock and baud_rate with baud_rate nonzero, no usize overflow
in 16 * baud_rate, and the divisor fitting in 16 bits, set_divisor
completes, writes divisor AND 0xFF to the divisor-latch-low register and
(divisor right-shifted 8) AND 0xFF to the divisor-latch-high register,
and leaves the DLAB bit of LCR clear. -/
theorem set_divisor_programs_divisor (clock baud_rate : Nat) (s : RegState)
    (hb : baud_rate ≠ 0) (hw : 16 * baud_rate < USIZE)
    (_hfit : clock / (16 * baud_rate) < 2 ^ 16) :
    set_divisor clock baud_rate s = some
      { s with
        thr_rbr_dll := clock / (16 * baud_rate) &&& 0xFF
        ier_dlh := (clock / (16 * baud_rate)) >>> 8 &&& 0xFF
        lcr := s.lcr &&& 0b01111111 } ∧
    (s.lcr &&& 0b01111111) &&& 0b10000000 = 0 := by
  have hd : 16 * baud_rate % USIZE = 16 * baud_rate := Nat.mod_eq_of_lt hw
  have hnz : ¬(16 * baud_rate = 0) := by
    simp [hb]
  refine ⟨?_, and_127_and_128 s.lcr⟩
  simp only [set_divisor, hd, if_neg hnz, enable_divisor_latch_accessible, write_dll, write_dlh,
    disable_divisor_latch_accessible, and_255_eq_mod, or_128_and_127]

/-- Witness for C2 at the spec's example: clock 1843200 and baud 115200
give divisor 1, low byte 0x01, high byte 0x00, DLAB clear. -/
theorem set_divisor_programs_divisor_witness :
    (set_divisor 1843200 115200 regLcrFF = some
      { regLcrFF with
        thr_rbr_dll := 1843200 / (16 * 115200) &&& 0xFF
        ier_dlh := (1843200 / (16 * 115200)) >>> 8 &&& 0xFF
        lcr := regLcrFF.lcr &&& 0b01111111 } ∧
      (regLcrFF.lcr &&& 0b01111111) &&& 0b10000000 = 0) ∧
    1843200 / (16 * 115200) &&& 0xFF = 0x01 ∧
    (1843200 / (16 * 115200)) >>> 8 &&& 0xFF = 0x00 :=
  ⟨set_divisor_programs_divisor 1843200 115200 regLcrFF (by decide) (by decide) (by decide),
   by decide, by decide⟩

/-- C3 (code bug): set_word_length ORs the encoded value into LCR without
clearing bits 0-1 first, so with the word-length field already holding
0b11 (as after init writes LCR = 3), set_word_length 5 leaves the field
at 0b11 instead of 0b00, and get_word_length then returns 8, not 5. -/
theorem set_word_length_does_not_clear_field :
    set_word_length 5 0b00000011 = some 0b00000011 ∧
    0b00000011 &&& 0b11 ≠ 5 - 5 ∧
    get_word_length 0b00000011 = 8 := by
  decide

/-- C4 counterexample: with baud_rate = 0 the claim says set_divisor
completes normally programming bytes 0x00/0x00, but the code divides by
zero and panics (modelled as none), so it does not complete. -/
theorem set_divisor_zero_baud_counterexample :
    set_divisor 1843200 0 regZero = none := by
  decide

/-- C4 (amended): with baud_rate = 0 set_divisor panics on the division
by zero; with baud_rate nonzero (and no usize overflow) but so large
that 16 * baud_rate exceeds clock, the divisor truncates to zero and
set_divisor completes, programming divisor bytes 0x00/0x00 without any
input validation. -/
theorem set_divisor_edge_cases (clock baud_rate : Nat) (s : RegState)
    (hw : 16 * baud_rate < USIZE) :
    (baud_rate = 0 → set_divisor clock baud_rate s = none) ∧
    (baud_rate ≠ 0 → clock < 16 * baud_rate →
      set_divisor clock baud_rate s = some
        { s with
          thr_rbr_dll := 0
          ier_dlh := 0
          lcr := s.lcr &&& 0b01111111 }) := by
  constructor
  · intro h
    subst h
    simp [set_divisor]
  · intro hb hgt
    have hd : 16 * baud_rate % USIZE = 16 * baud_rate := Nat.mod_eq_of_lt hw
    have hnz : ¬(16 * baud_rate = 0) := by
      simp [hb]
    have hdiv : clock / (16 * baud_rate) = 0 := Nat.div_eq_of_lt hgt
    simp only [set_divisor, hd, if_neg hnz, hdiv, enable_divisor_latch_accessible, write_dll,
      write_dlh, disable_divisor_latch_accessible, or_128_and_127, Nat.zero_shiftRight,
      Nat.zero_mod]

/-- Witness for C4's amended claim: baud 0 panics; clock 1000 with baud
115200 truncates to divisor 0 and writes 0x00/0x00. -/
theorem set_divisor_edge_cases_witness :
    set_divisor 1843200 0 regLcrFF = none ∧
    set_divisor 1000 115200 regLcrFF = some
      { regLcrFF with
        thr_rbr_dll := 0
        ier_dlh := 0
        lcr := regLcrFF.lcr &&& 0b01111111 } :=
  ⟨(set_divisor_edge_cases 1843200 0 regLcrFF (by decide)).1 rfl,
   (set_divisor_edge_cases 1000 115200 regLcrFF (by decide)).2 (by decide) (by decide)⟩

/-- C5: for every prior LCR byte and every valid argument, set_parity,
set_stop_bit and set_word_length leave every LCR bit outside their own
sub-field (bits 3-5, bit 2, bits 0-1 respectively) unchanged — in
particular DLAB (bit 7) and break-enable (bit 6) are preserved. -/
theorem lcr_setters_preserve_unrelated_bits :
    (∀ v : Fin 256, ∀ p : Parity,
      set_parity p v.val &&& 0b11000111 = v.val &&& 0b11000111) ∧
    (∀ v : Fin 256, ∀ sb : Fin 2,
      (set_stop_bit (sb.val + 1) v.val).map (fun r => r &&& 0b11111011) =
        some (v.val &&& 0b11111011)) ∧
    (∀ v : Fin 256, ∀ len : Fin 4,
      (set_word_length (len.val + 5) v.val).map (fun r => r &&& 0b11111100) =
        some (v.val &&& 0b11111100)) := by
  refine ⟨?_, ?_, ?_⟩ <;> decide

/-- C6 counterexample: starting from IER byte 0x80 (reserved bit 7 set by
hardware), toggling the sleep-mode flag twice does not restore the
original byte — from_bits_truncate drops bits 6-7 before the xor, so the
final byte is 0, not 0x80. -/
theorem toggle_sleep_twice_counterexample :
    toggle_sleep_mode (toggle_sleep_mode 0b10000000) ≠ 0b10000000 := by
  decide

/-- C6 (amended): for every initial IER byte whose reserved bits 6-7 are
clear, toggling any single declared IER flag twice restores the original
byte value. -/
theorem toggle_ier_flag_twice_restores :
    ∀ v : Fin 256, v.val &&& 0b11000000 = 0 → ∀ f ∈ ierFlags,
      toggle_ier_flag f (toggle_ier_flag f v.val) = v.val := by
  decide

/-- Witness for C6's amended claim at IER byte 0b00010101 and the
sleep-mode flag. -/
theorem toggle_ier_flag_twice_restores_witness :
    (0b00010101 : Nat) &&& 0b11000000 = 0 ∧ IER.SM ∈ ierFlags ∧
    toggle_ier_flag IER.SM (toggle_ier_flag IER.SM 0b00010101) = 0b00010101 :=
  ⟨by decide, by decide,
   toggle_ier_flag_twice_restores ⟨0b00010101, by decide⟩ (by decide) IER.SM (by decide)⟩

/-- C7: read_byte performs exactly one LSR read when data is not ready
and returns none without touching the data register, and on data ready
performs exactly one LSR read followed by exactly one RBR read and
returns the data byte; the access log lists the register reads in
order. -/
theorem read_byte_accesses (s : RegState) :
    (s.lsr &&& 1 = 0 → read_byte s = (none, [Reg.lsr])) ∧
    (s.lsr &&& 1 ≠ 0 → read_byte s = (some s.thr_rbr_dll, [Reg.lsr, Reg.thr_rbr_dll])) := by
  have hm : lsr_from_bits_truncate s.lsr % 2 = s.lsr % 2 := by
    rw [← Nat.and_one_is_mod (lsr_from_bits_truncate s.lsr), lsr_from_bits_truncate, Nat.and_assoc]
    norm_num
  constructor
  · intro h
    rw [Nat.and_one_is_mod] at h
    simp [read_byte, is_data_ready, read_lsr, LSR.DR, hm, h]
  · intro h
    rw [Nat.and_one_is_mod] at h
    have h1 : s.lsr % 2 = 1 := by
      omega
    simp [read_byte, is_data_ready, read_lsr, read_rbr, LSR.DR, hm, h1]

/-- Witness for C7: a block with data-ready clear gives none after one
status read; one with data-ready set returns the byte after a status
read and a data read. -/
theorem read_byte_accesses_witness :
    read_byte regZero = (none, [Reg.lsr]) ∧
    read_byte { regZero with lsr := 1, thr_rbr_dll := 42 } =
      (some 42, [Reg.lsr, Reg.thr_rbr_dll]) :=
  ⟨(read_byte_accesses regZero).1 (by decide),
   (read_byte_accesses { regZero with lsr := 1, thr_rbr_dll := 42 }).2 (by decide)⟩

/-- C8: for each of the five parity modes and every prior LCR byte,
set_parity followed by get_parity returns the mode without panicking. -/
theorem parity_roundtrip :
    ∀ v : Fin 256, ∀ p : Parity, get_parity (set_parity p v.val) = some p := by
  decide

/-- C9: set_stop_bit panics (none, no register write) for every argument
outside 1 and 2, and set_word_length panics for every argument outside
5..8, for every prior LCR byte. -/
theorem invalid_field_values_panic (arg v : Nat) :
    (arg ≠ 1 → arg ≠ 2 → set_stop_bit arg v = none) ∧
    (¬(5 ≤ arg ∧ arg ≤ 8) → set_word_length arg v = none) := by
  constructor
  · intro h1 h2
    unfold set_stop_bit
    split <;> simp_all
  · intro h
    unfold set_word_length
    rw [if_neg h]

/-- Witness for C9 at stop-bit argument 0 and word-length argument 0. -/
theorem invalid_field_values_panic_witness :
    set_stop_bit 0 0b11 = none ∧ set_word_length 0 0b11 = none :=
  ⟨(invalid_field_values_panic 0 0b11).1 (by decide) (by decide),
   (invalid_field_values_panic 0 0b11).2 (by decide)⟩

/-- C10: every IER byte written through the typed flag interface has
reserved bits 6-7 clear: from_bits_truncate drops them from the value
read, and the enable/disable/toggle transforms cannot reintroduce them
for any declared flag. -/
theorem ier_interface_clears_reserved_bits :
    ∀ v : Fin 256,
      ier_from_bits_truncate v.val &&& 0b11000000 = 0 ∧
      ∀ f ∈ ierFlags,
        enable_ier_flag f v.val &&& 0b11000000 = 0 ∧
        disable_ier_flag f v.val &&& 0b11000000 = 0 ∧
        toggle_ier_flag f v.val &&& 0b11000000 = 0 := by
  decide

/-- Witness for C10 at IER byte 0xFF and the received-data-available
flag. -/
theorem ier_interface_clears_reserved_bits_witness :
    ier_from_bits_truncate 0xFF &&& 0b11000000 = 0 ∧
    (enable_ier_flag IER.RDAI 0xFF &&& 0b11000000 = 0 ∧
      disable_ier_flag IER.RDAI 0xFF &&& 0b11000000 = 0 ∧
      toggle_ier_flag IER.RDAI 0xFF &&& 0b11000000 = 0) :=
  ⟨(ier_interface_clears_reserved_bits 0xFF).1,
   (ier_interface_clears_reserved_bits 0xFF).2 IER.RDAI (by decide)⟩

end Uart8250
